import Mathlib

/-!
Shallow embedding of the Spa_Controller firmware (TheFallen018/Spa_Controller).

Two variants are present in the repository's sources:
* the schedule variant (`Spa_Controller.ino`): three pump schedule slots and
  three heater schedule slots evaluated against the time of day, a manual
  override via the `/control` web handler, a `/schedule` form handler, an
  EEPROM-persisted configuration record, and `update_relays`;
* the simple two-relay variant (an unnamed `.ino`): MQTT-commanded pump and
  heater states, `is_payload_on` payload decoding, and
  `update_relays_and_publish_states`.

A third, advanced/thermostat variant is described only by the design document;
its relay evaluator is modelled from that description (see
`advanced_relay_evaluator`).

Machine integers (`int`/`long` on ESP32) are modelled as `Int`; the values the
firmware actually computes (minutes since midnight, parsed HH:MM digits) are
far below any 32-bit bound, so overflow never occurs on the modelled paths.
Arduino `String`s are modelled as `List Char` and MQTT byte payloads as
`List Nat` (byte values).
-/

namespace Spa

/-- `struct Schedule` from `Spa_Controller.ino`. -/
structure Schedule where
  start_hour : Int
  start_minute : Int
  end_hour : Int
  end_minute : Int
  deriving DecidableEq, Repr

/-- `struct WifiConfig` from `Spa_Controller.ino`. -/
structure WifiConfig where
  ssid : String
  password : String
  deriving DecidableEq, Repr

/-- A fixed array of three schedule slots (`Schedule xxx_schedules[3]`). -/
structure ScheduleArray3 where
  a0 : Schedule
  a1 : Schedule
  a2 : Schedule
  deriving DecidableEq, Repr

/-- `struct ControllerConfig` from `Spa_Controller.ino`.  `magic_marker` is a
`uint32_t` in the source, modelled as `Nat`. -/
structure ControllerConfig where
  magic_marker : Nat
  wifi : WifiConfig
  pump_schedules : ScheduleArray3
  heater_schedules : ScheduleArray3
  deriving DecidableEq, Repr

/-- The schedule-variant controller state touched by `loop` and the web
handlers: `circulation_pump_state`, `heater_state`, `manual_override`. -/
structure LoopState where
  circulation_pump_state : Bool
  heater_state : Bool
  manual_override : Bool
  deriving DecidableEq, Repr

/-- One slot's activity test, from the schedule-evaluation loop bodies in
`loop` (`Spa_Controller.ino`): compute `start_time` and `end_time` in minutes,
skip when equal, then same-day test `current >= start && current < end` or
overnight test `current >= start || current < end`. -/
def slot_active (sch : Schedule) (current_time_in_minutes : Int) : Bool :=
  let start_time : Int := sch.start_hour * 60 + sch.start_minute
  let end_time : Int := sch.end_hour * 60 + sch.end_minute
  if start_time = end_time then false
  else if start_time < end_time then
    decide (current_time_in_minutes ≥ start_time ∧ current_time_in_minutes < end_time)
  else
    decide (current_time_in_minutes ≥ start_time ∨ current_time_in_minutes < end_time)

/-- The `for (int i = 0; i < 3; i++) ... break` scan over a device's three
slots in `loop`: the device should be on iff some slot is active. -/
def any_schedule_active (a : ScheduleArray3) (t : Int) : Bool :=
  slot_active a.a0 t || slot_active a.a1 t || slot_active a.a2 t

/-- The schedule-evaluation part of `loop` (`Spa_Controller.ino` lines
177-219): when `manual_override` is clear, recompute both commanded states
from the schedules; when set, leave the state untouched. -/
def loop_schedule_step (cfg : ControllerConfig) (current_time_in_minutes : Int)
    (s : LoopState) : LoopState :=
  if s.manual_override then s
  else
    { s with
      circulation_pump_state := any_schedule_active cfg.pump_schedules current_time_in_minutes,
      heater_state := any_schedule_active cfg.heater_schedules current_time_in_minutes }

/-- Repeated `loop` iterations at a list of current times. -/
def run_loop_iterations (cfg : ControllerConfig) (ts : List Int) (s : LoopState) : LoopState :=
  ts.foldl (fun s t => loop_schedule_step cfg t s) s

/-- `update_relays` (`Spa_Controller.ino` lines 396-401): returns the pair
(final pump pin level, final heater pin level) written by `digitalWrite`. -/
def update_relays (circulation_pump_state heater_state : Bool) : Bool × Bool :=
  let final_pump_state := if heater_state then true else circulation_pump_state
  let final_heater_state := heater_state
  (final_pump_state, final_heater_state)

/-- `isspace` on the characters Arduino `String::toInt`/`atol` skips. -/
def is_c_space (c : Char) : Bool :=
  c = ' ' || c = '\t' || c = '\n' || c = '\x0b' || c = '\x0c' || c = '\r'

/-- Drop leading whitespace, as `atol` does. -/
def skip_spaces : List Char → List Char
  | [] => []
  | c :: cs => if is_c_space c then skip_spaces cs else c :: cs

/-- Accumulate a run of leading decimal digits, as `atol` does; stops at the
first non-digit. -/
def read_digits : List Char → Int → Int
  | [], acc => acc
  | c :: cs, acc =>
    if c.isDigit then read_digits cs (acc * 10 + ((c.toNat : Int) - 48)) else acc

/-- Arduino `String::toInt` (= C `atol` on the underlying buffer): optional
leading whitespace, optional sign, then a run of digits; no digits gives 0. -/
def str_toInt (s : List Char) : Int :=
  match skip_spaces s with
  | '-' :: cs => - read_digits cs 0
  | '+' :: cs => read_digits cs 0
  | cs => read_digits cs 0

/-- Arduino `String::substring(left, right)`: the characters at indices
`[left, right)`, clamped to the string length. -/
def substring (s : List Char) (left right : Nat) : List Char :=
  (s.drop left).take (right - left)

/-- `handle_manual_control` (`Spa_Controller.ino` lines 369-376).  Each of the
three HTTP arguments is `some value` when `server.hasArg` holds.  Sets
`manual_override`, applies `pump`/`heater` values via `toInt() == 1`, and
clears `manual_override` when a `schedule` argument is present. -/
def handle_manual_control (pump heater schedule : Option (List Char))
    (s : LoopState) : LoopState :=
  let s := { s with manual_override := true }
  let s := match pump with
    | some v => { s with circulation_pump_state := str_toInt v == 1 }
    | none => s
  let s := match heater with
    | some v => { s with heater_state := str_toInt v == 1 }
    | none => s
  match schedule with
  | some _ => { s with manual_override := false }
  | none => s

/-- The twelve HTTP form fields read by `handle_schedule`:
`p_start_0..2`, `p_end_0..2`, `h_start_0..2`, `h_end_0..2`. -/
structure ScheduleForm where
  p_start_0 : List Char
  p_start_1 : List Char
  p_start_2 : List Char
  p_end_0 : List Char
  p_end_1 : List Char
  p_end_2 : List Char
  h_start_0 : List Char
  h_start_1 : List Char
  h_start_2 : List Char
  h_end_0 : List Char
  h_end_1 : List Char
  h_end_2 : List Char
  deriving DecidableEq, Repr

/-- One slot rewrite in `handle_schedule`: assign
`{ start.substring(0,2).toInt(), start.substring(3,5).toInt(), 0, 0 }`, then
overwrite `end_hour` and `end_minute` from the end field. -/
def rewrite_slot (start_field end_field : List Char) : Schedule :=
  let sch : Schedule :=
    { start_hour := str_toInt (substring start_field 0 2),
      start_minute := str_toInt (substring start_field 3 5),
      end_hour := 0, end_minute := 0 }
  let sch := { sch with end_hour := str_toInt (substring end_field 0 2) }
  { sch with end_minute := str_toInt (substring end_field 3 5) }

/-- `save_config_to_eeprom` (`Spa_Controller.ino` lines 424-433): `EEPROM.put`
of the whole record; the returned value is the new EEPROM content. -/
def save_config_to_eeprom (cfg : ControllerConfig) : ControllerConfig :=
  cfg

/-- Result of `handle_schedule`: the in-memory configuration, the EEPROM
content after the handler, and whether `save_config_to_eeprom` ran. -/
structure HandleScheduleResult where
  config : ControllerConfig
  eeprom : ControllerConfig
  saved : Bool
  deriving DecidableEq, Repr

/-- `handle_schedule` (`Spa_Controller.ino` lines 378-394): for each
`i < 3`, rewrite pump slot `i` and heater slot `i` from the posted fields,
then one `save_config_to_eeprom()` of the whole record. -/
def handle_schedule (form : ScheduleForm) (cfg : ControllerConfig) : HandleScheduleResult :=
  let cfg :=
    { cfg with
      pump_schedules :=
        { a0 := rewrite_slot form.p_start_0 form.p_end_0,
          a1 := rewrite_slot form.p_start_1 form.p_end_1,
          a2 := rewrite_slot form.p_start_2 form.p_end_2 },
      heater_schedules :=
        { a0 := rewrite_slot form.h_start_0 form.h_end_0,
          a1 := rewrite_slot form.h_start_1 form.h_end_1,
          a2 := rewrite_slot form.h_start_2 form.h_end_2 } }
  { config := cfg, eeprom := save_config_to_eeprom cfg, saved := true }

/-- The default record installed by `load_config_from_eeprom` when the magic
marker check fails: marker `0xDEADBEEF`, empty WiFi credentials, pump slot 0 =
08:00-10:00, heater slot 0 = 08:15-09:45, all other slots `{0,0,0,0}`. -/
def default_config : ControllerConfig :=
  { magic_marker := 0xDEADBEEF,
    wifi := { ssid := "", password := "" },
    pump_schedules :=
      { a0 := { start_hour := 8, start_minute := 0, end_hour := 10, end_minute := 0 },
        a1 := { start_hour := 0, start_minute := 0, end_hour := 0, end_minute := 0 },
        a2 := { start_hour := 0, start_minute := 0, end_hour := 0, end_minute := 0 } },
    heater_schedules :=
      { a0 := { start_hour := 8, start_minute := 15, end_hour := 9, end_minute := 45 },
        a1 := { start_hour := 0, start_minute := 0, end_hour := 0, end_minute := 0 },
        a2 := { start_hour := 0, start_minute := 0, end_hour := 0, end_minute := 0 } } }

/-- Result of `load_config_from_eeprom`: the in-memory configuration, the
EEPROM content afterwards, and whether `save_config_to_eeprom` ran. -/
structure LoadResult where
  config : ControllerConfig
  eeprom : ControllerConfig
  saved : Bool
  deriving DecidableEq, Repr

/-- `load_config_from_eeprom` (`Spa_Controller.ino` lines 403-422):
`EEPROM.get` the stored record; if `magic_marker != 0xDEADBEEF`, install the
defaults and immediately `save_config_to_eeprom()`; otherwise keep the loaded
record unchanged. -/
def load_config_from_eeprom (stored : ControllerConfig) : LoadResult :=
  let controller_config := stored
  if controller_config.magic_marker ≠ 0xDEADBEEF then
    let controller_config := default_config
    { config := controller_config,
      eeprom := save_config_to_eeprom controller_config,
      saved := true }
  else
    { config := controller_config, eeprom := stored, saved := false }

/-- `bool_to_on_off`, identical in both variants. -/
def bool_to_on_off (state : Bool) : String :=
  if state then "ON" else "OFF"

/-- C `toupper` on a byte value: lowercase ASCII letters map to uppercase,
everything else is unchanged. -/
def c_toupper (c : Nat) : Nat :=
  if 97 ≤ c ∧ c ≤ 122 then c - 32 else c

/-- `is_payload_on` (simple variant): true exactly when the payload has
length 2 and `toupper(payload[0]) == 'O' && toupper(payload[1]) == 'N'`. -/
def is_payload_on : List Nat → Bool
  | [a, b] => c_toupper a == 79 && c_toupper b == 78
  | _ => false

/-- `mqtt_callback` (simple variant): decode the payload with
`is_payload_on` and route it to the pump or heater commanded state by topic. -/
def mqtt_callback (topic : String) (payload : List Nat)
    (circulation_pump_state heater_state : Bool) : Bool × Bool :=
  let is_on := is_payload_on payload
  if topic = "zado_spa/circulation_pump/set" then (is_on, heater_state)
  else if topic = "zado_spa/heater/set" then (circulation_pump_state, is_on)
  else (circulation_pump_state, heater_state)

/-- Observable outcome of `update_relays_and_publish_states` (simple
variant): the two GPIO levels written and the two retained state messages
published. -/
structure RelayPublishResult where
  circulation_pump_pin : Bool
  heater_pin : Bool
  pump_state_message : String
  heater_state_message : String
  deriving DecidableEq, Repr

/-- `update_relays_and_publish_states` (simple variant, lines 228-259): if
the heater is requested the pump must be on, else the pump follows its own
request; write both GPIOs and publish the final (derived) states. -/
def update_relays_and_publish_states (circulation_pump_state heater_state : Bool) :
    RelayPublishResult :=
  let p : Bool × Bool :=
    if heater_state then (true, true)
    else (circulation_pump_state, false)
  let final_pump_state := p.1
  let final_heater_state := p.2
  { circulation_pump_pin := final_pump_state,
    heater_pin := final_heater_state,
    pump_state_message := bool_to_on_off final_pump_state,
    heater_state_message := bool_to_on_off final_heater_state }

/-- Modelled from the spec: the advanced/thermostat variant's source is not
in the repository (only the schedule and simple variants are); these are the
control inputs named in the design document's data model (§3). -/
structure AdvancedInputs where
  spa_on : Bool
  standby_warming : Bool
  fast_heating : Bool
  circulation_only : Bool
  blower_requested : Bool
  measured_temperature : ℚ
  target_temperature : ℚ
  temperature_tolerance : ℚ
  standby_tolerance : ℚ
  standby_temp_delta : ℚ
  deriving DecidableEq

/-- Modelled from the spec: the advanced variant's relay outputs (§3). -/
structure AdvancedOutputs where
  pump : Bool
  external_heater : Bool
  internal_heater : Bool
  blower : Bool
  deriving DecidableEq, Repr

/-- Modelled from the spec: the advanced/thermostat variant's relay
evaluator, following the design document's §4.1 algorithm steps 1-7
(spa-off shutdown, effective target/tolerance under standby warming,
`heating_needed` with the `circulation_only` veto, the pump formula, the two
heater outputs, the blower passthrough, and the final safety re-check).
Temperatures are `float` in the description, modelled as `ℚ`. -/
def advanced_relay_evaluator (i : AdvancedInputs) : AdvancedOutputs :=
  if !i.spa_on then
    { pump := false, external_heater := false, internal_heater := false, blower := false }
  else
    let effective_target :=
      i.target_temperature + (if i.standby_warming then i.standby_temp_delta else 0)
    let effective_tolerance :=
      if i.standby_warming then i.standby_tolerance else i.temperature_tolerance
    let heating_needed :=
      decide (i.measured_temperature < effective_target - effective_tolerance)
        && !i.circulation_only
    let pump_on := heating_needed || !i.standby_warming || i.circulation_only
    let external_heater := heating_needed
    let internal_heater := heating_needed && i.fast_heating
    let pump_on := if external_heater || internal_heater then true else pump_on
    { pump := pump_on, external_heater := external_heater,
      internal_heater := internal_heater, blower := i.blower_requested }

/-! ### Helper lemmas -/

/-- A loop iteration leaves the state unchanged while `manual_override` holds. -/
theorem loop_schedule_step_of_override (cfg : ControllerConfig) (t : Int) (s : LoopState)
    (h : s.manual_override = true) : loop_schedule_step cfg t s = s := by
  simp [loop_schedule_step, h]

/-- Any number of loop iterations leave the state unchanged while
`manual_override` holds. -/
theorem run_loop_iterations_of_override (cfg : ControllerConfig) (ts : List Int)
    (s : LoopState) (h : s.manual_override = true) : run_loop_iterations cfg ts s = s := by
  induction ts with
  | nil => rfl
  | cons t ts ih =>
    simp only [run_loop_iterations, List.foldl_cons] at *
    rw [loop_schedule_step_of_override cfg t s h, ih]

/-- With no `schedule` argument, `handle_manual_control` leaves
`manual_override` set. -/
theorem handle_manual_control_none_override (pump heater : Option (List Char))
    (s : LoopState) : (handle_manual_control pump heater none s).manual_override = true := by
  cases pump <;> cases heater <;> simp [handle_manual_control]

/-- `toupper` of a byte equals `'O'` exactly on the two spellings of `O`. -/
theorem c_toupper_eq_O (c : Nat) : c_toupper c = 79 ↔ (c = 79 ∨ c = 111) := by
  unfold c_toupper
  split <;> omega

/-- `toupper` of a byte equals `'N'` exactly on the two spellings of `N`. -/
theorem c_toupper_eq_N (c : Nat) : c_toupper c = 78 ↔ (c = 78 ∨ c = 110) := by
  unfold c_toupper
  split <;> omega

/-! ### Claim theorems -/

/-- C1: in every variant that has both outputs — `update_relays` in the
schedule variant and `update_relays_and_publish_states` in the simple
variant — whenever the heater pin is driven high, the pump pin is driven
high too, for every combination of commanded states. -/
theorem heater_asserted_implies_pump_asserted
    (circulation_pump_state heater_state : Bool) :
    ((update_relays circulation_pump_state heater_state).2 = true →
      (update_relays circulation_pump_state heater_state).1 = true)
    ∧ ((update_relays_and_publish_states circulation_pump_state heater_state).heater_pin = true →
      (update_relays_and_publish_states circulation_pump_state
        heater_state).circulation_pump_pin = true) := by
  cases heater_state <;>
    simp [update_relays, update_relays_and_publish_states]

/-- Witness for C1 at a concrete input: pump commanded off, heater commanded
on. -/
theorem heater_asserted_implies_pump_asserted_witness :
    (update_relays false true).2 = true
    ∧ (update_relays false true).1 = true
    ∧ (update_relays_and_publish_states false true).heater_pin = true
    ∧ (update_relays_and_publish_states false true).circulation_pump_pin = true :=
  ⟨by decide,
   (heater_asserted_implies_pump_asserted false true).1 (by decide),
   by decide,
   (heater_asserted_implies_pump_asserted false true).2 (by decide)⟩

/-- C2: a slot is active iff its start differs from its end and either the
same-day window `start ≤ t < end` (when `start < end`) or the overnight
window `t ≥ start ∨ t < end` (when `start > end`) contains the current time;
a device's scheduled state is on iff at least one of its three slots is
active; and the overnight slot 22:00-06:00 is active at 23:00 and at 05:00
but not at 12:00. -/
theorem schedule_slot_activity_spec :
    (∀ (sch : Schedule) (t : Int),
      slot_active sch t = true ↔
        (sch.start_hour * 60 + sch.start_minute ≠ sch.end_hour * 60 + sch.end_minute ∧
          ((sch.start_hour * 60 + sch.start_minute < sch.end_hour * 60 + sch.end_minute ∧
             sch.start_hour * 60 + sch.start_minute ≤ t ∧
             t < sch.end_hour * 60 + sch.end_minute) ∨
           (sch.start_hour * 60 + sch.start_minute > sch.end_hour * 60 + sch.end_minute ∧
             (t ≥ sch.start_hour * 60 + sch.start_minute ∨
              t < sch.end_hour * 60 + sch.end_minute)))))
    ∧ (∀ (a : ScheduleArray3) (t : Int),
        any_schedule_active a t = true ↔
          (slot_active a.a0 t = true ∨ slot_active a.a1 t = true ∨ slot_active a.a2 t = true))
    ∧ slot_active { start_hour := 22, start_minute := 0, end_hour := 6, end_minute := 0 }
        (23 * 60) = true
    ∧ slot_active { start_hour := 22, start_minute := 0, end_hour := 6, end_minute := 0 }
        (5 * 60) = true
    ∧ slot_active { start_hour := 22, start_minute := 0, end_hour := 6, end_minute := 0 }
        (12 * 60) = false := by
  refine ⟨fun sch t => ?_, fun a t => ?_, by decide, by decide, by decide⟩
  · simp only [slot_active]
    split
    · simp only [Bool.false_eq_true, false_iff]
      omega
    · split <;> simp <;> omega
  · simp [any_schedule_active]
    tauto

/-- C3: a slot whose start time equals its end time (in minutes since
midnight) is never active, at any current time. -/
theorem disabled_schedule_never_active (sch : Schedule) (t : Int)
    (h : sch.start_hour * 60 + sch.start_minute = sch.end_hour * 60 + sch.end_minute) :
    slot_active sch t = false := by
  simp [slot_active, h]

/-- Witness for C3: the all-zero slot at noon. -/
theorem disabled_schedule_never_active_witness :
    ((0 : Int) * 60 + 0 = 0 * 60 + 0)
    ∧ slot_active { start_hour := 0, start_minute := 0, end_hour := 0, end_minute := 0 }
        (12 * 60) = false :=
  ⟨by decide,
   disabled_schedule_never_active
     { start_hour := 0, start_minute := 0, end_hour := 0, end_minute := 0 }
     (12 * 60) (by decide)⟩

/-- C4: in the simple two-relay variant, a commanded heater forces both
outputs on; with the heater commanded off, the heater output is off and the
pump output equals the commanded pump state exactly. -/
theorem simple_variant_relay_logic (circulation_pump_state heater_state : Bool) :
    (heater_state = true →
      (update_relays_and_publish_states circulation_pump_state
        heater_state).circulation_pump_pin = true ∧
      (update_relays_and_publish_states circulation_pump_state
        heater_state).heater_pin = true)
    ∧ (heater_state = false →
      (update_relays_and_publish_states circulation_pump_state
        heater_state).heater_pin = false ∧
      (update_relays_and_publish_states circulation_pump_state
        heater_state).circulation_pump_pin = circulation_pump_state) := by
  cases heater_state <;> simp [update_relays_and_publish_states]

/-- Witness for C4, covering both branches at concrete inputs. -/
theorem simple_variant_relay_logic_witness :
    ((update_relays_and_publish_states false true).circulation_pump_pin = true ∧
      (update_relays_and_publish_states false true).heater_pin = true)
    ∧ ((update_relays_and_publish_states true false).heater_pin = false ∧
      (update_relays_and_publish_states true false).circulation_pump_pin = true) :=
  ⟨(simple_variant_relay_logic false true).1 rfl,
   (simple_variant_relay_logic true false).2 rfl⟩

/-- C5: a payload asserts a boolean channel iff it is exactly two bytes
spelling `ON` case-insensitively — first byte `'O'` (79) or `'o'` (111),
second byte `'N'` (78) or `'n'` (110); every other payload, including the
empty one and longer ones, maps to deasserted. -/
theorem payload_on_iff_case_insensitive_on (p : List Nat) :
    is_payload_on p = true ↔
      ∃ a b, p = [a, b] ∧ (a = 79 ∨ a = 111) ∧ (b = 78 ∨ b = 110) := by
  match p with
  | [] => simp [is_payload_on]
  | [a] => simp [is_payload_on]
  | [a, b] =>
    simp only [is_payload_on, Bool.and_eq_true, beq_iff_eq, c_toupper_eq_O, c_toupper_eq_N]
    constructor
    · rintro ⟨hO, hN⟩
      exact ⟨a, b, rfl, hO, hN⟩
    · rintro ⟨x, y, hxy, hO, hN⟩
      obtain ⟨rfl, rfl⟩ : a = x ∧ b = y := by
        simpa using hxy
      exact ⟨hO, hN⟩
  | a :: b :: c :: rest => simp [is_payload_on]

/-- C6: loading the persisted configuration rejects the record exactly when
its magic marker differs from `0xDEADBEEF`; on rejection the defaults (empty
WiFi credentials, pump slot 08:00-10:00, heater slot 08:15-09:45, all other
slots zeroed) are installed and immediately persisted, and on a matching
marker the loaded record is kept unchanged with no save. -/
theorem eeprom_config_validation (stored : ControllerConfig) :
    (stored.magic_marker ≠ 0xDEADBEEF →
      load_config_from_eeprom stored =
        { config := default_config, eeprom := default_config, saved := true })
    ∧ (stored.magic_marker = 0xDEADBEEF →
      load_config_from_eeprom stored = { config := stored, eeprom := stored, saved := false })
    ∧ default_config.magic_marker = 0xDEADBEEF
    ∧ default_config.wifi = { ssid := "", password := "" }
    ∧ default_config.pump_schedules =
        { a0 := { start_hour := 8, start_minute := 0, end_hour := 10, end_minute := 0 },
          a1 := { start_hour := 0, start_minute := 0, end_hour := 0, end_minute := 0 },
          a2 := { start_hour := 0, start_minute := 0, end_hour := 0, end_minute := 0 } }
    ∧ default_config.heater_schedules =
        { a0 := { start_hour := 8, start_minute := 15, end_hour := 9, end_minute := 45 },
          a1 := { start_hour := 0, start_minute := 0, end_hour := 0, end_minute := 0 },
          a2 := { start_hour := 0, start_minute := 0, end_hour := 0, end_minute := 0 } } := by
  refine ⟨fun h => ?_, fun h => ?_, rfl, rfl, rfl, rfl⟩
  · simp [load_config_from_eeprom, save_config_to_eeprom, h]
  · simp [load_config_from_eeprom, h]

/-- Witness for C6, exercising both the rejection branch (marker 0) and the
acceptance branch (marker `0xDEADBEEF`). -/
theorem eeprom_config_validation_witness :
    (({ default_config with magic_marker := 0 } : ControllerConfig).magic_marker ≠ 0xDEADBEEF
      ∧ load_config_from_eeprom { default_config with magic_marker := 0 } =
          { config := default_config, eeprom := default_config, saved := true })
    ∧ (default_config.magic_marker = 0xDEADBEEF
      ∧ load_config_from_eeprom default_config =
          { config := default_config, eeprom := default_config, saved := false }) :=
  ⟨⟨by decide, (eeprom_config_validation { default_config with magic_marker := 0 }).1 (by decide)⟩,
   ⟨rfl, (eeprom_config_validation default_config).2.1 rfl⟩⟩

/-- C7: one `/schedule` form post overwrites all three pump slots and all
three heater slots from the posted fields (hours parsed from characters
`[0,2)`, minutes from characters `[3,5)` of each field), independently of
every previous slot value, and persists the whole record in one save. -/
theorem schedule_form_rewrites_all_slots (form : ScheduleForm) (cfg : ControllerConfig) :
    (handle_schedule form cfg).saved = true
    ∧ (handle_schedule form cfg).eeprom = (handle_schedule form cfg).config
    ∧ (handle_schedule form cfg).config.pump_schedules =
        { a0 := { start_hour := str_toInt (substring form.p_start_0 0 2),
                  start_minute := str_toInt (substring form.p_start_0 3 5),
                  end_hour := str_toInt (substring form.p_end_0 0 2),
                  end_minute := str_toInt (substring form.p_end_0 3 5) },
          a1 := { start_hour := str_toInt (substring form.p_start_1 0 2),
                  start_minute := str_toInt (substring form.p_start_1 3 5),
                  end_hour := str_toInt (substring form.p_end_1 0 2),
                  end_minute := str_toInt (substring form.p_end_1 3 5) },
          a2 := { start_hour := str_toInt (substring form.p_start_2 0 2),
                  start_minute := str_toInt (substring form.p_start_2 3 5),
                  end_hour := str_toInt (substring form.p_end_2 0 2),
                  end_minute := str_toInt (substring form.p_end_2 3 5) } }
    ∧ (handle_schedule form cfg).config.heater_schedules =
        { a0 := { start_hour := str_toInt (substring form.h_start_0 0 2),
                  start_minute := str_toInt (substring form.h_start_0 3 5),
                  end_hour := str_toInt (substring form.h_end_0 0 2),
                  end_minute := str_toInt (substring form.h_end_0 3 5) },
          a1 := { start_hour := str_toInt (substring form.h_start_1 0 2),
                  start_minute := str_toInt (substring form.h_start_1 3 5),
                  end_hour := str_toInt (substring form.h_end_1 0 2),
                  end_minute := str_toInt (substring form.h_end_1 3 5) },
          a2 := { start_hour := str_toInt (substring form.h_start_2 0 2),
                  start_minute := str_toInt (substring form.h_start_2 3 5),
                  end_hour := str_toInt (substring form.h_end_2 0 2),
                  end_minute := str_toInt (substring form.h_end_2 3 5) } } :=
  ⟨rfl, rfl, rfl, rfl⟩

/-- C8: in the advanced/thermostat variant's relay evaluator (modelled from
the spec, see `advanced_relay_evaluator`), `circulation_only = true`
deasserts both the external and the internal heater output, whatever the
measured and target temperatures are. -/
theorem circulation_only_vetoes_heating (i : AdvancedInputs)
    (h : i.circulation_only = true) :
    (advanced_relay_evaluator i).external_heater = false
    ∧ (advanced_relay_evaluator i).internal_heater = false := by
  cases hs : i.spa_on <;> simp [advanced_relay_evaluator, h, hs]

/-- A concrete advanced-variant input with the measured temperature far
below the effective target and `circulation_only` set. -/
def advanced_witness_input : AdvancedInputs :=
  { spa_on := true, standby_warming := false, fast_heating := true,
    circulation_only := true, blower_requested := false,
    measured_temperature := -1000000, target_temperature := 40,
    temperature_tolerance := 1 / 5, standby_tolerance := 1,
    standby_temp_delta := 2 }

/-- Witness for C8 at `advanced_witness_input`. -/
theorem circulation_only_vetoes_heating_witness :
    advanced_witness_input.circulation_only = true
    ∧ (advanced_relay_evaluator advanced_witness_input).external_heater = false
    ∧ (advanced_relay_evaluator advanced_witness_input).internal_heater = false :=
  ⟨rfl, (circulation_only_vetoes_heating advanced_witness_input rfl).1,
   (circulation_only_vetoes_heating advanced_witness_input rfl).2⟩

/-- C9: a `/control` post carrying a pump or heater argument and no schedule
argument leaves `manual_override` set; while it is set, any number of loop
iterations leave the whole state (commanded pump/heater included)
unchanged; and a later `/control` post carrying a schedule argument clears
`manual_override`. -/
theorem manual_override_blocks_schedule (pump heater : Option (List Char)) (s : LoopState)
    (_h : pump.isSome = true ∨ heater.isSome = true) :
    (handle_manual_control pump heater none s).manual_override = true
    ∧ (∀ (cfg : ControllerConfig) (ts : List Int),
        run_loop_iterations cfg ts (handle_manual_control pump heater none s) =
          handle_manual_control pump heater none s)
    ∧ (∀ (pump2 heater2 : Option (List Char)) (v : List Char),
        (handle_manual_control pump2 heater2 (some v)
          (handle_manual_control pump heater none s)).manual_override = false) := by
  refine ⟨handle_manual_control_none_override pump heater s, fun cfg ts => ?_,
    fun pump2 heater2 v => ?_⟩
  · exact run_loop_iterations_of_override cfg ts _
      (handle_manual_control_none_override pump heater s)
  · cases pump2 <;> cases heater2 <;> simp [handle_manual_control]

/-- Witness for C9: a pump-on post, two subsequent loop ticks at 09:00 and
10:00 with the default configuration, and a resume-schedule post. -/
theorem manual_override_blocks_schedule_witness :
    ((some ['1'] : Option (List Char)).isSome = true
      ∨ (none : Option (List Char)).isSome = true)
    ∧ (handle_manual_control (some ['1']) none none
        { circulation_pump_state := false, heater_state := false,
          manual_override := false }).manual_override = true
    ∧ run_loop_iterations default_config [540, 600]
        (handle_manual_control (some ['1']) none none
          { circulation_pump_state := false, heater_state := false,
            manual_override := false }) =
        handle_manual_control (some ['1']) none none
          { circulation_pump_state := false, heater_state := false,
            manual_override := false }
    ∧ (handle_manual_control none none (some ['1'])
        (handle_manual_control (some ['1']) none none
          { circulation_pump_state := false, heater_state := false,
            manual_override := false })).manual_override = false :=
  have t := manual_override_blocks_schedule (some ['1']) none
    { circulation_pump_state := false, heater_state := false, manual_override := false }
    (Or.inl rfl)
  ⟨Or.inl rfl, t.1, t.2.1 default_config [540, 600], t.2.2 none none ['1']⟩

/-- C10: the simple variant publishes the derived outputs, not the raw
commands: the pump state message is `"ON"` iff the heater or the pump is
commanded on, it always equals the rendering of the final pump pin, and with
heater on / pump off it reads `"ON"` while the commanded pump state renders
as `"OFF"`. -/
theorem simple_variant_publishes_derived_states :
    (∀ circulation_pump_state heater_state : Bool,
      (update_relays_and_publish_states circulation_pump_state
        heater_state).pump_state_message = "ON" ↔
        (heater_state = true ∨ circulation_pump_state = true))
    ∧ (∀ circulation_pump_state heater_state : Bool,
      (update_relays_and_publish_states circulation_pump_state
        heater_state).pump_state_message =
        bool_to_on_off (update_relays_and_publish_states circulation_pump_state
          heater_state).circulation_pump_pin)
    ∧ (update_relays_and_publish_states false true).pump_state_message = "ON"
    ∧ (update_relays_and_publish_states false true).pump_state_message ≠
        bool_to_on_off false := by
  refine ⟨fun c h => ?_, fun c h => ?_, by decide, by decide⟩
  · cases h <;> cases c <;> simp [update_relays_and_publish_states, bool_to_on_off]
  · cases h <;> cases c <;> simp [update_relays_and_publish_states, bool_to_on_off]

end Spa
